import Mathlib

/-!
Shallow embedding of the xorshift PRNG crate (SplitMix64, Xorshift128+,
Xoroshiro128+, Xorshift1024*) and proofs about its transition, seeding and
jump operations.

Machine u64 values are modelled as `Nat` with an explicit `% 2 ^ 64` wherever
the Rust code wraps (`Wrapping` add/mul, `<<` truncation).  Fallible seeding
(Rust panics) is modelled with `Except String`.  Each definition mirrors one
function of the source crate.
-/

/-- 2^64, the u64 wraparound modulus. -/
def u64Mod : Nat := 2 ^ 64

/-- `rotl` from xoroshiro128.rs: `(x << k) | (x >> (64 - k))` on u64. -/
def rotl (x : Nat) (k : Nat) : Nat := ((x <<< k) % u64Mod) ||| (x >>> (64 - k))

/-! ## SplitMix64 (splitmix64.rs) -/

/-- `SplitMix64(u64)`: one u64 word of state. -/
structure SplitMix64 where
  s : Nat
deriving DecidableEq

/-- `Rng::next_u64` for SplitMix64: returns (result, new generator). -/
def SplitMix64.next_u64 (g : SplitMix64) : Nat × SplitMix64 :=
  let z := (g.s + 0x9E3779B97F4A7C15) % u64Mod
  let g1 : SplitMix64 := ⟨z⟩
  let z := ((z ^^^ (z >>> 30)) * 0xBF58476D1CE4E5B9) % u64Mod
  let z := ((z ^^^ (z >>> 27)) * 0x94D049BB133111EB) % u64Mod
  (z ^^^ (z >>> 31), g1)

/-- `Rng::next_u32` for SplitMix64: `self.next_u64() as u32`. -/
def SplitMix64.next_u32 (g : SplitMix64) : Nat × SplitMix64 :=
  let r := SplitMix64.next_u64 g
  (r.1 % 2 ^ 32, r.2)

/-- State transition of `SplitMix64.next_u64`, discarding the output. -/
def SplitMix64.step (g : SplitMix64) : SplitMix64 :=
  (SplitMix64.next_u64 g).2

/-! ## Xorshift128+ (xorshift128.rs)

The state is `[u64; 2]`; we model it as a pair (state[0], state[1]). -/

abbrev Xorshift128 := Nat × Nat

/-- `Rng::next_u64` for Xorshift128 (xorshift128.rs lines 56-65). -/
def Xorshift128.next_u64 (g : Xorshift128) : Nat × Xorshift128 :=
  let s1 := g.1
  let s0 := g.2
  let result := (s0 + s1) % u64Mod
  let s1 := s1 ^^^ ((s1 <<< 23) % u64Mod)
  (result, (s0, s1 ^^^ s0 ^^^ (s1 >>> 18) ^^^ (s0 >>> 5)))

/-- `Rng::next_u32` for Xorshift128: `self.next_u64() as u32`. -/
def Xorshift128.next_u32 (g : Xorshift128) : Nat × Xorshift128 :=
  let r := Xorshift128.next_u64 g
  (r.1 % 2 ^ 32, r.2)

/-- State transition of `Xorshift128.next_u64`, discarding the output. -/
def Xorshift128.step (g : Xorshift128) : Xorshift128 :=
  (Xorshift128.next_u64 g).2

/-- `static EMPTY: Xorshift128 = Xorshift128([0, 0])`. -/
def Xorshift128.EMPTY : Xorshift128 := (0, 0)

/-- `SeedableRng::reseed` for Xorshift128: panics (modelled as an error) when
fewer than two seed words are supplied, otherwise overwrites both state words
with the first two seed words. -/
def Xorshift128.reseed (_g : Xorshift128) (seed : List Nat) : Except String Xorshift128 :=
  if seed.length < 2 then
    Except.error "Xorshift128 seed needs at least two u64s for seeding."
  else
    Except.ok (seed.getD 0 0, seed.getD 1 0)

/-- `SeedableRng::from_seed` for Xorshift128: `EMPTY` then `reseed`. -/
def Xorshift128.from_seed (seed : List Nat) : Except String Xorshift128 :=
  Xorshift128.reseed Xorshift128.EMPTY seed

/-- `static JUMP: [u64; 2]` of xorshift128.rs. -/
def Xorshift128.JUMP : List Nat := [0x8a5cd789635d2dff, 0x121fd2155c472f96]

/-! ## Xoroshiro128+ (xoroshiro128.rs) -/

abbrev Xoroshiro128 := Nat × Nat

/-- `Rng::next_u64` for Xoroshiro128 (xoroshiro128.rs lines 64-75). -/
def Xoroshiro128.next_u64 (g : Xoroshiro128) : Nat × Xoroshiro128 :=
  let s0 := g.1
  let s1 := g.2
  let result := (s0 + s1) % u64Mod
  let s1 := s1 ^^^ s0
  (result, (rotl s0 55 ^^^ s1 ^^^ ((s1 <<< 14) % u64Mod), rotl s1 36))

/-- `Rng::next_u32` for Xoroshiro128: `self.next_u64() as u32`. -/
def Xoroshiro128.next_u32 (g : Xoroshiro128) : Nat × Xoroshiro128 :=
  let r := Xoroshiro128.next_u64 g
  (r.1 % 2 ^ 32, r.2)

/-- State transition of `Xoroshiro128.next_u64`, discarding the output. -/
def Xoroshiro128.step (g : Xoroshiro128) : Xoroshiro128 :=
  (Xoroshiro128.next_u64 g).2

/-- `static EMPTY: Xoroshiro128 = Xoroshiro128([0, 0])`. -/
def Xoroshiro128.EMPTY : Xoroshiro128 := (0, 0)

/-- `SeedableRng::reseed` for Xoroshiro128: same contract as Xorshift128. -/
def Xoroshiro128.reseed (_g : Xoroshiro128) (seed : List Nat) : Except String Xoroshiro128 :=
  if seed.length < 2 then
    Except.error "Xoroshiro128 seed needs at least two u64s for seeding."
  else
    Except.ok (seed.getD 0 0, seed.getD 1 0)

/-- `SeedableRng::from_seed` for Xoroshiro128: `EMPTY` then `reseed`. -/
def Xoroshiro128.from_seed (seed : List Nat) : Except String Xoroshiro128 :=
  Xoroshiro128.reseed Xoroshiro128.EMPTY seed

/-- `static JUMP: [u64; 2]` of xoroshiro128.rs. -/
def Xoroshiro128.JUMP : List Nat := [0xbeac0467eba5facb, 0xd86b048b86aa9922]

/-! ## Shared jump loop of the two 128-bit generators

Both `RngJump` impls run the same loop, differing only in the transition
function and the JUMP constant:

    for _ in 0..count {
        s0 = 0; s1 = 0;
        for i in 0..JUMP.len() { for b in 0..64 {
            if (JUMP[i] & 1 << b) != 0 { s0 ^= self.0[0]; s1 ^= self.0[1]; }
            self.next_u64();
        }}
        self.0[0] = s0; self.0[1] = s1;
    }
-/

/-- One iteration of the inner `b` loop: conditionally XOR the live state into
the accumulator pair, then advance the generator one transition. The running
value `x` is (accumulator, generator). -/
def pairJumpBit (step : Nat × Nat → Nat × Nat) (J : Nat)
    (x : (Nat × Nat) × (Nat × Nat)) (b : Nat) : (Nat × Nat) × (Nat × Nat) :=
  let acc := if (J &&& (1 <<< b)) != 0 then (x.1.1 ^^^ x.2.1, x.1.2 ^^^ x.2.2) else x.1
  (acc, step x.2)

/-- One iteration of the outer `count` loop: scan all 128 JUMP bits, then
replace the state with the accumulator pair. -/
def pairJumpRound (step : Nat × Nat → Nat × Nat) (JUMP : List Nat)
    (g : Nat × Nat) : Nat × Nat :=
  (JUMP.foldl (fun x J => (List.range 64).foldl (pairJumpBit step J) x) ((0, 0), g)).1

/-- `RngJump::jump` for Xorshift128. -/
def Xorshift128.jump (count : Nat) (g : Xorshift128) : Xorshift128 :=
  (pairJumpRound Xorshift128.step Xorshift128.JUMP)^[count] g

/-- `RngJump::jump` for Xoroshiro128. -/
def Xoroshiro128.jump (count : Nat) (g : Xoroshiro128) : Xoroshiro128 :=
  (pairJumpRound Xoroshiro128.step Xoroshiro128.JUMP)^[count] g

/-! ## Xorshift1024* (xorshift1024.rs) -/

/-- `Xorshift1024 { state: [u64; 16], p: usize }`. The fixed-size array is
modelled as a `List Nat` (length 16 for every state the crate constructs). -/
structure Xorshift1024 where
  state : List Nat
  p : Nat
deriving DecidableEq

/-- `static EMPTY` of xorshift1024.rs: all-zero state, `p = 0`. -/
def Xorshift1024.EMPTY : Xorshift1024 := ⟨List.replicate 16 0, 0⟩

/-- `Rng::next_u64` for Xorshift1024 (xorshift1024.rs lines 48-58). -/
def Xorshift1024.next_u64 (g : Xorshift1024) : Nat × Xorshift1024 :=
  let s0 := g.state.getD g.p 0
  let p := (g.p + 1) &&& 15
  let s1 := g.state.getD p 0
  let s1 := s1 ^^^ ((s1 <<< 31) % u64Mod)
  let v := s1 ^^^ s0 ^^^ (s1 >>> 11) ^^^ (s0 >>> 30)
  ((v * 1181783497276652981) % u64Mod, ⟨g.state.set p v, p⟩)

/-- `Rng::next_u32` for Xorshift1024: `self.next_u64() as u32`. -/
def Xorshift1024.next_u32 (g : Xorshift1024) : Nat × Xorshift1024 :=
  let r := Xorshift1024.next_u64 g
  (r.1 % 2 ^ 32, r.2)

/-- State transition of `Xorshift1024.next_u64`, discarding the output. -/
def Xorshift1024.step (g : Xorshift1024) : Xorshift1024 :=
  (Xorshift1024.next_u64 g).2

/-- The enumerate loop of `SeedableRng::reseed` for Xorshift1024:
`for (index, element) in seed.iter().enumerate() { self.state[index] = *element; }`.
Indexing past the end of the fixed-size array panics in Rust, modelled as an
error. -/
def Xorshift1024.reseedLoop : List Nat → List Nat → Nat → Except String (List Nat)
  | st, [], _ => Except.ok st
  | st, e :: rest, idx =>
    if idx < st.length then Xorshift1024.reseedLoop (st.set idx e) rest (idx + 1)
    else Except.error "index out of bounds"

/-- `SeedableRng::reseed` for Xorshift1024: guard on the seed length, then the
enumerate loop over the whole seed. The index `p` is left untouched. -/
def Xorshift1024.reseed (g : Xorshift1024) (seed : List Nat) : Except String Xorshift1024 :=
  if seed.length < 16 then
    Except.error "Xorshift1024 seed needs at least 16 u64s for seeding."
  else
    (Xorshift1024.reseedLoop g.state seed 0).map (fun st => ⟨st, g.p⟩)

/-- `SeedableRng::from_seed` for Xorshift1024: `EMPTY` then `reseed`. -/
def Xorshift1024.from_seed (seed : List Nat) : Except String Xorshift1024 :=
  Xorshift1024.reseed Xorshift1024.EMPTY seed

/-- `static JUMP: [u64; 16]` of xorshift1024.rs. -/
def Xorshift1024.JUMP : List Nat :=
  [0x84242f96eca9c41d, 0xa3c65b8776f96855, 0x5b34a39f070b5837, 0x4489affce4f31a1e,
   0x2ffeeb0a48316f40, 0xdc2d9891fe68c022, 0x3659132bb12fea70, 0xaac17d8efa43cab8,
   0xc4cb815590989b13, 0x5ee975283d71c93b, 0x691548c86c1bd540, 0x7910c41d10a1e6a5,
   0x0b5fc64563b3e2a8, 0x047f7684e9fc949d, 0xb99181f2d8f685ca, 0x284600e3f30e38c3]

/-! ## Xorshift1024 jump

`RngJump::jump` for Xorshift1024 copies the state array and the index into
locals before the `count` loop (`let mut s = self.state; let p = self.p;` —
`[u64; 16]` is `Copy`, so `s` is a detached copy).  The accumulator `t` is
built from that frozen copy, the interleaved `self.next_u64()` calls advance
the real generator, and the end-of-round writeback targets the local `s`,
which is dropped when `jump` returns. -/

/-- One iteration of the inner `b` loop of Xorshift1024's jump: conditionally
fold the frozen local copy `s` (offset by the frozen local `p`) into the
accumulator, then advance the live generator. The running value `x` is
(accumulator t, generator). -/
def Xorshift1024.jumpBit (s : List Nat) (p : Nat) (J : Nat)
    (x : List Nat × Xorshift1024) (b : Nat) : List Nat × Xorshift1024 :=
  let t := if (J &&& (1 <<< b)) != 0
    then (List.range 16).map (fun j => x.1.getD j 0 ^^^ s.getD ((j + p) &&& 15) 0)
    else x.1
  (t, Xorshift1024.step x.2)

/-- One iteration of the outer `count` loop of Xorshift1024's jump: scan all
1024 JUMP bits, then write the accumulator back into the local copy `s`
through the rotating offset. The running value is (local s, generator). -/
def Xorshift1024.jumpRound (p : Nat) (sg : List Nat × Xorshift1024) :
    List Nat × Xorshift1024 :=
  let x := Xorshift1024.JUMP.foldl
    (fun x J => (List.range 64).foldl (Xorshift1024.jumpBit sg.1 p J) x)
    (List.replicate 16 0, sg.2)
  let s := (List.range 16).foldl (fun s j => s.set ((j + p) &&& 15) (x.1.getD j 0)) sg.1
  (s, x.2)

/-- `RngJump::jump` for Xorshift1024: thread the local copy `s` and the live
generator through `count` rounds (with `p` frozen at its entry value), then
return the generator; the local copy is discarded. -/
def Xorshift1024.jump (count : Nat) (g : Xorshift1024) : Xorshift1024 :=
  ((Xorshift1024.jumpRound g.p)^[count] (g.state, g)).2

/-! ## Sanity checks against the crate's own golden test vectors -/

example : (SplitMix64.next_u64 ⟨1477776061723855037⟩).1 = 1985237415132408290 := by decide

example :
    (SplitMix64.next_u64 (SplitMix64.next_u64 ⟨1477776061723855037⟩).2).1 =
      2979275885539914483 := by decide

example :
    (Xorshift128.next_u64 (1477776990746309507, 1477776990746309507)).1 =
      2955553981492619014 := by decide

example :
    (Xorshift128.next_u64
        (Xorshift128.step (1477776990746309507, 1477776990746309507))).1 =
      4599697141668829146 := by decide

example :
    (Xoroshiro128.next_u64
        (Xoroshiro128.step (1477776328140003287, 1477776328140003287))).1 =
      16972449677822927371 := by decide

example :
    (Xorshift1024.next_u64 ⟨List.replicate 16 1477777179826044140, 0⟩).1 =
      14360464905097655832 := by decide

example :
    (Xorshift1024.next_u64
        (Xorshift1024.step ⟨List.replicate 16 1477777179826044140, 0⟩)).1 =
      10515520027797512354 := by decide

/-! ## Helper lemmas -/

/-- `n & 15` is `n mod 16`. -/
theorem land_fifteen (n : Nat) : n &&& 15 = n % 16 := by
  simpa using Nat.and_pow_two_sub_one_eq_mod n 4

/-- The generator component of the inner 64-bit scan is just the transition
iterated, independent of the accumulator. -/
theorem pairJumpBit_foldl_snd (step : Nat × Nat → Nat × Nat) (J : Nat) :
    ∀ (l : List Nat) (x : (Nat × Nat) × (Nat × Nat)),
      (l.foldl (pairJumpBit step J) x).2 = step^[l.length] x.2 := by
  intro l
  induction l with
  | nil => intro x; rfl
  | cons b bs ih =>
    intro x
    have h1 : (bs.foldl (pairJumpBit step J) (pairJumpBit step J x b)).2 =
        step^[bs.length] (pairJumpBit step J x b).2 := ih _
    have h2 : (pairJumpBit step J x b).2 = step x.2 := rfl
    simp only [List.foldl_cons, List.length_cons, h1, h2,
      Function.iterate_succ_apply]

/-- The generator component of Xorshift1024's inner 64-bit scan is just the
transition iterated, independent of the accumulator and of the frozen copy. -/
theorem Xorshift1024.jumpBit_foldl_snd (s : List Nat) (p J : Nat) :
    ∀ (l : List Nat) (x : List Nat × Xorshift1024),
      (l.foldl (Xorshift1024.jumpBit s p J) x).2 = Xorshift1024.step^[l.length] x.2 := by
  intro l
  induction l with
  | nil => intro x; rfl
  | cons b bs ih =>
    intro x
    have h1 : (bs.foldl (Xorshift1024.jumpBit s p J) (Xorshift1024.jumpBit s p J x b)).2 =
        Xorshift1024.step^[bs.length] (Xorshift1024.jumpBit s p J x b).2 := ih _
    have h2 : (Xorshift1024.jumpBit s p J x b).2 = Xorshift1024.step x.2 := rfl
    simp only [List.foldl_cons, List.length_cons, h1, h2,
      Function.iterate_succ_apply]

/-- The generator component of Xorshift1024's full 1024-bit scan is the
transition iterated 64 times per JUMP word. -/
theorem Xorshift1024.jumpWords_foldl_snd (s : List Nat) (p : Nat) :
    ∀ (Js : List Nat) (x : List Nat × Xorshift1024),
      ((Js.foldl (fun x J => (List.range 64).foldl (Xorshift1024.jumpBit s p J) x) x).2) =
        Xorshift1024.step^[64 * Js.length] x.2 := by
  intro Js
  induction Js with
  | nil => intro x; rfl
  | cons J Js ih =>
    intro x
    have h1 := ih ((List.range 64).foldl (Xorshift1024.jumpBit s p J) x)
    have h2 := Xorshift1024.jumpBit_foldl_snd s p J (List.range 64) x
    simp only [List.length_range] at h2
    simp only [List.foldl_cons, List.length_cons, h1, h2,
      ← Function.iterate_add_apply]
    have h3 : 64 * Js.length + 64 = 64 * (Js.length + 1) := by ring
    rw [h3]

/-- One round of Xorshift1024's jump advances the generator component by
exactly 1024 transitions. -/
theorem Xorshift1024.jumpRound_snd (p : Nat) (sg : List Nat × Xorshift1024) :
    (Xorshift1024.jumpRound p sg).2 = Xorshift1024.step^[1024] sg.2 := by
  show (Xorshift1024.JUMP.foldl
      (fun x J => (List.range 64).foldl (Xorshift1024.jumpBit sg.1 p J) x)
      (List.replicate 16 0, sg.2)).2 = Xorshift1024.step^[1024] sg.2
  rw [Xorshift1024.jumpWords_foldl_snd]
  rfl

/-- The generator component of the iterated jump round is the transition
iterated 1024 times per round. -/
theorem Xorshift1024.jumpRound_iterate_snd (p : Nat) :
    ∀ (n : Nat) (sg : List Nat × Xorshift1024),
      ((Xorshift1024.jumpRound p)^[n] sg).2 = Xorshift1024.step^[1024 * n] sg.2 := by
  intro n
  induction n with
  | zero => intro sg; rfl
  | succ n ih =>
    intro sg
    rw [Function.iterate_succ_apply, ih, Xorshift1024.jumpRound_snd,
      ← Function.iterate_add_apply]
    have h : 1024 * n + 1024 = 1024 * (n + 1) := by ring
    rw [h]

/-- `Xorshift1024.jump count` is exactly `1024 * count` plain transitions of
the generator: the accumulator is computed into a discarded local copy, so the
only effect on the generator itself is the interleaved `next_u64` calls. -/
theorem Xorshift1024.jump_eq_iterate (count : Nat) (g : Xorshift1024) :
    Xorshift1024.jump count g = Xorshift1024.step^[1024 * count] g :=
  Xorshift1024.jumpRound_iterate_snd g.p count (g.state, g)

/-- Setting the element just after a prefix: `(pre ++ a :: suf).set pre.length e`
replaces `a` with `e`. -/
theorem set_append_length {α : Type} (pre suf : List α) (a e : α) :
    (pre ++ a :: suf).set pre.length e = pre ++ e :: suf := by
  induction pre with
  | nil => rfl
  | cons x xs ih => simp [List.set, ih]

/-- The reseed loop started at offset `pre.length` into `pre ++ suf` with a
seed as long as `suf` replaces exactly the `suf` part. -/
theorem Xorshift1024.reseedLoop_append :
    ∀ (seed pre suf : List Nat), seed.length = suf.length →
      Xorshift1024.reseedLoop (pre ++ suf) seed pre.length = Except.ok (pre ++ seed) := by
  intro seed
  induction seed with
  | nil =>
    intro pre suf h
    have : suf = [] := List.eq_nil_of_length_eq_zero h.symm
    subst this
    rfl
  | cons e rest ih =>
    intro pre suf h
    cases suf with
    | nil => simp at h
    | cons a suf =>
      have hlt : pre.length < (pre ++ a :: suf).length := by
        simp
      rw [Xorshift1024.reseedLoop, if_pos hlt, set_append_length]
      have hlen : (pre ++ [e]).length = pre.length + 1 := by simp
      have hassoc : (pre ++ [e]) ++ suf = pre ++ e :: suf := by simp
      have hrest : rest.length = suf.length := by
        simpa using h
      have := ih (pre ++ [e]) suf hrest
      rw [hassoc, hlen] at this
      rw [this]
      simp

/-- Reseeding a 16-word-state Xorshift1024 with a 16-word seed replaces the
state words with the seed and keeps `p`. -/
theorem Xorshift1024.reseed_of_length (g : Xorshift1024) (seed : List Nat)
    (hg : g.state.length = 16) (hs : seed.length = 16) :
    Xorshift1024.reseed g seed = Except.ok ⟨seed, g.p⟩ := by
  rw [Xorshift1024.reseed, if_neg (by omega)]
  have h := Xorshift1024.reseedLoop_append seed [] g.state (by rw [hs, hg])
  simp only [List.nil_append, List.length_nil] at h
  rw [h]
  rfl

/-! ## Claim theorems: the transition functions -/

/-- C6: `SplitMix64.next_u64` replaces the state word `s` with
`s + 0x9E3779B97F4A7C15` under 64-bit wraparound and returns the result of the
three mixing rounds (XOR shift-right 30 then multiply `0xBF58476D1CE4E5B9`,
XOR shift-right 27 then multiply `0x94D049BB133111EB`, XOR shift-right 31)
applied to the new state. -/
theorem splitmix64_next_u64_transition :
    ∀ s : Nat,
      SplitMix64.next_u64 ⟨s⟩ =
        (let z := (s + 0x9E3779B97F4A7C15) % u64Mod
         let z1 := ((z ^^^ (z >>> 30)) * 0xBF58476D1CE4E5B9) % u64Mod
         let z2 := ((z1 ^^^ (z1 >>> 27)) * 0x94D049BB133111EB) % u64Mod
         (z2 ^^^ (z2 >>> 31), ⟨(s + 0x9E3779B97F4A7C15) % u64Mod⟩)) :=
  fun _ => rfl

/-- C5: `Xorshift128.next_u64` on state words `(a, b)` returns the wrapping
64-bit sum of the two words, moves the old second word into the first slot,
and fills the second slot with the XOR-shift combination of
`t = a XOR (a << 23)` (the shift-left-23 xorshift of the old first word) with
the old second word and the shifts-right 18 (of `t`) and 5 (of `b`). -/
theorem xorshift128_next_u64_transition :
    ∀ a b : Nat,
      Xorshift128.next_u64 (a, b) =
        ((a + b) % u64Mod,
         (b, (a ^^^ ((a <<< 23) % u64Mod)) ^^^ b ^^^
             ((a ^^^ ((a <<< 23) % u64Mod)) >>> 18) ^^^ (b >>> 5))) := by
  intro a b
  show ((b + a) % u64Mod, _) = ((a + b) % u64Mod, _)
  rw [Nat.add_comm b a]

/-- C4: `Xoroshiro128.next_u64` on state `(s0, s1)` returns `s0 + s1` under
64-bit wraparound and updates the state to
`(rotate_left(s0, 55) XOR t XOR (t << 14), rotate_left(t, 36))` with
`t = s1 XOR s0`, where `rotl` is the 64-bit circular rotation. -/
theorem xoroshiro128_next_u64_transition :
    ∀ s0 s1 : Nat,
      Xoroshiro128.next_u64 (s0, s1) =
        ((s0 + s1) % u64Mod,
         (rotl s0 55 ^^^ (s1 ^^^ s0) ^^^ (((s1 ^^^ s0) <<< 14) % u64Mod),
          rotl (s1 ^^^ s0) 36)) :=
  fun _ _ => rfl

/-- C8: for all four generators, `next_u32` returns exactly the low 32 bits of
the value `next_u64` would return on the same pre-call state, and leaves the
generator in the identical post-call state. -/
theorem next_u32_truncates_next_u64 :
    ∀ (a : SplitMix64) (b : Xorshift128) (c : Xoroshiro128) (d : Xorshift1024),
      SplitMix64.next_u32 a =
        ((SplitMix64.next_u64 a).1 % 2 ^ 32, (SplitMix64.next_u64 a).2) ∧
      Xorshift128.next_u32 b =
        ((Xorshift128.next_u64 b).1 % 2 ^ 32, (Xorshift128.next_u64 b).2) ∧
      Xoroshiro128.next_u32 c =
        ((Xoroshiro128.next_u64 c).1 % 2 ^ 32, (Xoroshiro128.next_u64 c).2) ∧
      Xorshift1024.next_u32 d =
        ((Xorshift1024.next_u64 d).1 % 2 ^ 32, (Xorshift1024.next_u64 d).2) :=
  fun _ _ _ _ => ⟨rfl, rfl, rfl, rfl⟩

/-! ## Claim theorem: jump composition -/

/-- Composing one iterate with one iterate is two iterates, stated for an
arbitrary function so that instantiating it never evaluates the function. -/
theorem iterate_one_one {α : Type} (f : α → α) (a : α) : f^[1] (f^[1] a) = f^[2] a := by
  rw [← Function.iterate_add_apply]

/-- C7: for all three jumpable generators, `jump 1` applied twice equals
`jump 2` applied once, and `jump 0` leaves the state unchanged. For the
128-bit generators the jump body is iterated `count` times on the generator;
for Xorshift1024 both sides reduce to `1024 * count` plain transitions. -/
theorem jump_composes_and_zero_noop :
    ∀ (a : Xorshift128) (b : Xoroshiro128) (c : Xorshift1024),
      Xorshift128.jump 1 (Xorshift128.jump 1 a) = Xorshift128.jump 2 a ∧
      Xorshift128.jump 0 a = a ∧
      Xoroshiro128.jump 1 (Xoroshiro128.jump 1 b) = Xoroshiro128.jump 2 b ∧
      Xoroshiro128.jump 0 b = b ∧
      Xorshift1024.jump 1 (Xorshift1024.jump 1 c) = Xorshift1024.jump 2 c ∧
      Xorshift1024.jump 0 c = c := by
  intro a b c
  refine ⟨iterate_one_one _ a, rfl, iterate_one_one _ b, rfl, ?_, rfl⟩
  rw [Xorshift1024.jump_eq_iterate 1 c, Xorshift1024.jump_eq_iterate 1,
    Xorshift1024.jump_eq_iterate 2 c, ← Function.iterate_add_apply]

/-! ## Claim theorem: degenerate all-zero state -/

/-- Every word of the list is zero. -/
def allZero (l : List Nat) : Prop := ∀ x ∈ l, x = 0

instance (l : List Nat) : Decidable (allZero l) :=
  inferInstanceAs (Decidable (∀ x ∈ l, x = 0))

/-- `getD` on an all-zero list is zero at every index. -/
theorem allZero_getD {l : List Nat} (h : allZero l) : ∀ i : Nat, l.getD i 0 = 0 := by
  induction l with
  | nil => intro i; cases i <;> rfl
  | cons a t ih =>
    intro i
    cases i with
    | zero => exact h a (List.mem_cons_self a t)
    | succ n => exact ih (fun x hx => h x (List.mem_cons_of_mem a hx)) n

/-- On an all-zero state array, `Xorshift1024.next_u64` outputs 0 and keeps
every state word zero. -/
theorem Xorshift1024.next_u64_zero (g : Xorshift1024) (h : allZero g.state) :
    (Xorshift1024.next_u64 g).1 = 0 ∧ allZero (Xorshift1024.step g).state := by
  have h0 : ∀ i : Nat, g.state.getD i 0 = 0 := allZero_getD h
  constructor
  · simp only [Xorshift1024.next_u64, h0]
    norm_num
  · intro x hx
    simp only [Xorshift1024.step, Xorshift1024.next_u64, h0] at hx
    rcases List.mem_or_eq_of_mem_set hx with hmem | hval
    · exact h x hmem
    · simpa using hval

/-- Iterating the Xorshift1024 transition preserves an all-zero state array. -/
theorem Xorshift1024.iterate_zero (g : Xorshift1024) (h : allZero g.state) :
    ∀ n : Nat, allZero (Xorshift1024.step^[n] g).state := by
  intro n
  induction n generalizing g with
  | zero => exact h
  | succ n ih =>
    rw [Function.iterate_succ_apply]
    exact ih _ (Xorshift1024.next_u64_zero g h).2

/-- C9: the all-zero state is degenerate for the 128-bit and 1024-bit
generators: starting from an all-zero word array, every output of the stream
is 0 and the word array stays all-zero after each call. (For Xorshift1024 the
index `p` still rotates, but every word remains zero.) -/
theorem all_zero_state_degenerate :
    ∀ n : Nat,
      Xorshift128.step^[n] (0, 0) = (0, 0) ∧
      (Xorshift128.next_u64 (Xorshift128.step^[n] (0, 0))).1 = 0 ∧
      Xoroshiro128.step^[n] (0, 0) = (0, 0) ∧
      (Xoroshiro128.next_u64 (Xoroshiro128.step^[n] (0, 0))).1 = 0 ∧
      ∀ g : Xorshift1024, allZero g.state →
        allZero (Xorshift1024.step^[n] g).state ∧
        (Xorshift1024.next_u64 (Xorshift1024.step^[n] g)).1 = 0 := by
  intro n
  have h128 : Xorshift128.step^[n] (0, 0) = ((0, 0) : Xorshift128) :=
    Function.iterate_fixed (by decide) n
  have hxo : Xoroshiro128.step^[n] (0, 0) = ((0, 0) : Xoroshiro128) :=
    Function.iterate_fixed (by decide) n
  refine ⟨h128, ?_, hxo, ?_, ?_⟩
  · rw [h128]; decide
  · rw [hxo]; decide
  · intro g hg
    have hz := Xorshift1024.iterate_zero g hg n
    exact ⟨hz, (Xorshift1024.next_u64_zero _ hz).1⟩

/-- C9 witness: the degeneracy claim instantiated at step 3 of the all-zero
Xorshift1024 state `EMPTY`. -/
theorem all_zero_state_degenerate_witness :
    allZero Xorshift1024.EMPTY.state ∧
    allZero (Xorshift1024.step^[3] Xorshift1024.EMPTY).state ∧
    (Xorshift1024.next_u64 (Xorshift1024.step^[3] Xorshift1024.EMPTY)).1 = 0 := by
  refine ⟨by decide, ?_, ?_⟩
  · exact ((all_zero_state_degenerate 3).2.2.2.2 Xorshift1024.EMPTY (by decide)).1
  · exact ((all_zero_state_degenerate 3).2.2.2.2 Xorshift1024.EMPTY (by decide)).2

/-! ## Claim theorem: Xorshift1024 transition frame -/

/-- C10: one `Xorshift1024.next_u64` call increments `p` modulo 16, keeps the
state array length, and changes no state word other than the one at the new
index `p`. -/
theorem xorshift1024_next_u64_frame :
    ∀ g : Xorshift1024,
      (Xorshift1024.next_u64 g).2.p = (g.p + 1) % 16 ∧
      (Xorshift1024.next_u64 g).2.state.length = g.state.length ∧
      ∀ j : Nat, j ≠ (g.p + 1) % 16 →
        (Xorshift1024.next_u64 g).2.state.getD j 0 = g.state.getD j 0 := by
  intro g
  refine ⟨land_fifteen (g.p + 1), by simp [Xorshift1024.next_u64], ?_⟩
  intro j hj
  have hne : (g.p + 1) &&& 15 ≠ j := by
    rw [land_fifteen]
    exact fun h => hj h.symm
  show (g.state.set ((g.p + 1) &&& 15) _).getD j 0 = g.state.getD j 0
  simp only [List.getD_eq_getElem?_getD]
  rw [List.getElem?_set_ne hne]

/-- C10 witness: the frame condition at a concrete generator and index. -/
theorem xorshift1024_next_u64_frame_witness :
    (Xorshift1024.next_u64 ⟨List.replicate 16 9, 0⟩).2.p = 1 ∧
    (Xorshift1024.next_u64 ⟨List.replicate 16 9, 0⟩).2.state.getD 5 0 =
      (List.replicate 16 9).getD 5 0 := by
  have h := xorshift1024_next_u64_frame ⟨List.replicate 16 9, 0⟩
  exact ⟨h.1, h.2.2 5 (by decide)⟩

/-! ## Claim theorems: seeding -/

/-- C3 counterexample: reseeding an existing Xorshift1024 whose index `p` is 3
with a full 16-word seed copies the words but leaves `p = 3`; the claimed
post-state with `p = 0` is a different generator. `reseed` never touches `p`
(only `from_seed` starts from `EMPTY`, whose `p` is 0). -/
theorem xorshift1024_reseed_keeps_index_counterexample :
    Xorshift1024.reseed ⟨List.replicate 16 7, 3⟩ (List.range 16) =
      Except.ok ⟨List.range 16, 3⟩ ∧
    (⟨List.range 16, 3⟩ : Xorshift1024) ≠ ⟨List.range 16, 0⟩ := by
  constructor
  · rfl
  · decide

/-- C3 (amended): seeding a Xorshift1024 with exactly 16 words copies them
positionally into the state array; `from_seed` yields index `p = 0` (it starts
from `EMPTY`), while `reseed` on an existing instance leaves `p` unchanged. -/
theorem xorshift1024_seeding_copies_words :
    ∀ (g : Xorshift1024) (seed : List Nat),
      g.state.length = 16 → seed.length = 16 →
      Xorshift1024.reseed g seed = Except.ok ⟨seed, g.p⟩ ∧
      Xorshift1024.from_seed seed = Except.ok ⟨seed, 0⟩ := by
  intro g seed hg hs
  constructor
  · exact Xorshift1024.reseed_of_length g seed hg hs
  · exact Xorshift1024.reseed_of_length Xorshift1024.EMPTY seed (by decide) hs

/-- C3 witness: the amended seeding claim at a concrete generator (with
`p = 9`) and the concrete seed `[0, 1, ..., 15]`. -/
theorem xorshift1024_seeding_copies_words_witness :
    (⟨List.replicate 16 5, 9⟩ : Xorshift1024).state.length = 16 ∧
    (List.range 16).length = 16 ∧
    Xorshift1024.reseed ⟨List.replicate 16 5, 9⟩ (List.range 16) =
      Except.ok ⟨List.range 16, 9⟩ ∧
    Xorshift1024.from_seed (List.range 16) = Except.ok ⟨List.range 16, 0⟩ := by
  refine ⟨by decide, by decide, ?_, ?_⟩
  · exact (xorshift1024_seeding_copies_words ⟨List.replicate 16 5, 9⟩ (List.range 16)
      (by decide) (by decide)).1
  · exact (xorshift1024_seeding_copies_words ⟨List.replicate 16 5, 9⟩ (List.range 16)
      (by decide) (by decide)).2

/-- C2: evaluation of the seed-length contract. Seeds shorter than the state
fail with the insufficient-length error for all three generators, and the two
128-bit generators ignore extra words; but `Xorshift1024.reseed` iterates over
the whole seed, so a 17-word seed runs the enumerate loop past the end of the
16-element state array and hits Rust's index-out-of-bounds panic instead of
succeeding. -/
theorem xorshift1024_overlong_seed_out_of_bounds :
    Xorshift128.from_seed [1] =
      Except.error "Xorshift128 seed needs at least two u64s for seeding." ∧
    Xoroshiro128.from_seed [1] =
      Except.error "Xoroshiro128 seed needs at least two u64s for seeding." ∧
    Xorshift1024.from_seed (List.replicate 15 1) =
      Except.error "Xorshift1024 seed needs at least 16 u64s for seeding." ∧
    Xorshift128.from_seed (List.replicate 17 1) = Except.ok (1, 1) ∧
    Xoroshiro128.from_seed (List.replicate 17 1) = Except.ok (1, 1) ∧
    Xorshift1024.from_seed (List.replicate 17 1) = Except.error "index out of bounds" :=
  ⟨rfl, rfl, rfl, rfl, rfl, rfl⟩

/-! ## Claim theorem: the Xorshift1024 jump writeback is lost -/

/-- A concrete probe state for the jump bug: state `[1, 0, ..., 0]`, `p = 0`. -/
def jumpProbe : Xorshift1024 := ⟨1 :: List.replicate 15 0, 0⟩

set_option maxRecDepth 100000

/-- C1: after `Xorshift1024.jump` the generator does NOT hold the accumulated
polynomial result. The jump body writes the accumulator back into a local copy
of the state array (`let mut s = self.state;` copies, since `[u64; 16]` is
`Copy`), which is discarded when `jump` returns; the generator itself is left
exactly at the state reached by the `1024 * count` interleaved `next_u64`
calls. At the concrete probe state the discarded writeback array differs from
the state `jump` actually leaves behind. -/
theorem xorshift1024_jump_discards_accumulator :
    (∀ (count : Nat) (g : Xorshift1024),
      Xorshift1024.jump count g = Xorshift1024.step^[1024 * count] g) ∧
    (Xorshift1024.jump 1 jumpProbe).state ≠
      (Xorshift1024.jumpRound jumpProbe.p (jumpProbe.state, jumpProbe)).1 := by
  constructor
  · exact Xorshift1024.jump_eq_iterate
  · decide
